import Mathlib

/-!
Shallow embedding of the conversational session engine of the AttarVoice
repository and proofs about it.

Embedded sources:
* `widget/src/widget.js` — class `TravelVoiceWidget`: the conversation
  message list, `addMessage`, `showError`, `startVoiceCall`, `endVoiceCall`,
  `onCallEnd`, `sendTextMessage` (with its `setTimeout` reply callback) and
  `getErrorMessage`.
* `frontend/src/components/ChatInterface.js` — class `ChatInterface`:
  `sendMessage`, `generateAIResponse`, `addMessage`, `saveMessages`,
  `loadMessages`.

JavaScript strings are Lean `String`s; the string operations the source
uses (`toLowerCase`, `trim`, `includes`) are re-implemented below over
`String.data` so that every definition evaluates inside the kernel.
-/

/-- Whitespace test matching the characters `String.prototype.trim` removes
from the inputs that occur here (space, tab, newline, carriage return). -/
def wsChar (c : Char) : Bool :=
  c == ' ' || c == '\t' || c == '\n' || c == '\r'

/-- Remove leading and trailing whitespace from a character list. -/
def trimChars (l : List Char) : List Char :=
  ((l.dropWhile wsChar).reverse.dropWhile wsChar).reverse

/-- JavaScript `s.trim()`. -/
def strTrim (s : String) : String :=
  ⟨trimChars s.data⟩

/-- Does the first list start with the second? -/
def strStarts : List Char → List Char → Bool
  | _, [] => true
  | [], _ :: _ => false
  | a :: as, b :: bs => a == b && strStarts as bs

/-- Does the first list contain the second as a contiguous run? -/
def strHas : List Char → List Char → Bool
  | [], needle => strStarts [] needle
  | a :: as, needle => strStarts (a :: as) needle || strHas as needle

/-- JavaScript `hay.includes(needle)` (case-sensitive, as in JS). -/
def strContains (hay needle : String) : Bool :=
  strHas hay.data needle.data

/-- JavaScript `s.toLowerCase()` on the ASCII inputs that occur here. -/
def strLower (s : String) : String :=
  ⟨s.data.map Char.toLower⟩

/-- The failure taxonomy named by the specification (§7).  The widget code
distinguishes exactly the four branch outcomes of `getErrorMessage`
(`PermissionDenied`, `InsecureTransport`, `AssistantMisconfigured`,
`Unknown`); `NetworkFailure` and `Timeout` occur nowhere in the source and
are carried only so that claims mentioning them can be stated. -/
inductive ErrorKind where
  | PermissionDenied
  | InsecureTransport
  | AssistantMisconfigured
  | NetworkFailure
  | Timeout
  | Unknown
deriving DecidableEq

/-- The intent categories named by the specification (§3).  The frontend
code has no explicit intent value; each category names one branch of
`ChatInterface.generateAIResponse`. -/
inductive Intent where
  | FlightSearch
  | Greeting
  | HotelSearch
  | BookingHelp
  | Fallback
deriving DecidableEq

namespace TravelVoiceWidget

/-- One entry of `TravelVoiceWidget.this.messages`
(`widget.js` `addMessage`, lines 282–295): `{ text, type, time }`. -/
structure Msg where
  text : String
  type : String
  time : String
deriving DecidableEq

/-- The mutable fields of `TravelVoiceWidget` that the session claims are
about (`widget.js` constructor, lines 17–21).  UI-only fields (`button`,
`panel`, CSS classes) are omitted; `vapiClient` is collapsed into
`vapiReady`, since `initVapi` sets both together (lines 166–167). -/
structure State where
  isOpen : Bool
  isListening : Bool
  vapiReady : Bool
  messages : List Msg
deriving DecidableEq

/-- The state of a freshly constructed widget (`widget.js` lines 17–21). -/
def initialState : State :=
  { isOpen := false, isListening := false, vapiReady := false, messages := [] }

/-- Source `addMessage(text, type)` (`widget.js` 282–295): pushes
`{ text, type, time }` onto `this.messages`.  The timestamp the source
computes from `new Date()` is passed in as `time`; the conditional
re-render of the panel is UI only and not modelled. -/
def addMessage (text type time : String) (s : State) : State :=
  { s with messages := s.messages ++ [⟨text, type, time⟩] }

/-- Source `showError(message)` (`widget.js` 381–388): appends a system message
with a warning prefix. -/
def showError (message time : String) (s : State) : State :=
  addMessage ("⚠️ " ++ message) "system" time s

/-- The not-ready error text of `startVoiceCall` (`widget.js` 196). -/
def stillLoadingText : String :=
  "Voice service is still loading. Please wait a moment and try again."

/-- The system message appended after a successful call start
(`widget.js` 220). -/
def callStartedText : String :=
  "🎙️ Voice call started - speak now! The AI will respond with voice."

/-- Source `getErrorMessage(error)` (`widget.js` 390–403).  The input is
`error.message` (`none` when the thrown value has no message). -/
def getErrorMessage (errMessage : Option String) : String :=
  match errMessage with
  | some m =>
    if strContains m "permission" || strContains m "Permission" then
      "Microphone permission denied. Please allow microphone access and try again."
    else if strContains m "secure" || strContains m "HTTPS" then
      "Voice calls require HTTPS. Please use a secure connection."
    else if strContains m "assistant" then
      "Voice assistant not configured. Please check your settings."
    else
      "Error: " ++ m
  | none => "Failed to start voice call. Please try again."

/-- The error kind corresponding to each branch of `getErrorMessage`
(`widget.js` 390–403): it names which branch the raw failure text takes.
Both the final `Error: ...` branch and the missing-message fallback are
`Unknown`. -/
def classifyError (errMessage : Option String) : ErrorKind :=
  match errMessage with
  | some m =>
    if strContains m "permission" || strContains m "Permission" then
      ErrorKind.PermissionDenied
    else if strContains m "secure" || strContains m "HTTPS" then
      ErrorKind.InsecureTransport
    else if strContains m "assistant" then
      ErrorKind.AssistantMisconfigured
    else
      ErrorKind.Unknown
  | none => ErrorKind.Unknown

/-- The user-facing text `getErrorMessage` produces for each error kind. -/
def errorText (k : ErrorKind) (m : String) : String :=
  match k with
  | ErrorKind.PermissionDenied =>
    "Microphone permission denied. Please allow microphone access and try again."
  | ErrorKind.InsecureTransport =>
    "Voice calls require HTTPS. Please use a secure connection."
  | ErrorKind.AssistantMisconfigured =>
    "Voice assistant not configured. Please check your settings."
  | _ => "Error: " ++ m

/-- Source `startVoiceCall()` (`widget.js` 194–229).  `runResult` is the outcome
of the synchronous `window.vapiSDK.run(...)` call (`Except.error` models a
throw, caught at line 222).  The returned `Bool` records whether
`window.vapiSDK.run` was invoked at all.  DOM updates (`classList`,
`updatePanelBody`, `showMessages`) are UI only and not modelled. -/
def startVoiceCall (runResult : Except String Unit) (time : String) (s : State) :
    State × Bool :=
  if !s.vapiReady then
    (showError stillLoadingText time s, false)
  else
    let s1 := { s with isListening := true }
    match runResult with
    | Except.ok _ => (addMessage callStartedText "system" time s1, true)
    | Except.error e =>
      ({ showError (getErrorMessage (some e)) time s1 with isListening := false }, true)

/-- Source `onCallEnd()` (`widget.js` 275–280): clears the listening flag and
appends the call-end system message. -/
def onCallEnd (time : String) (s : State) : State :=
  addMessage "Call ended. How else can I help you?" "system" time
    { s with isListening := false }

/-- Source `endVoiceCall()` (`widget.js` 251–267): only acts while listening;
attempts `window.vapiSDK.stop()` (guarded by `window.vapiSDK &&
window.vapiSDK.stop`, errors swallowed by the inner try/catch) and then
runs `onCallEnd`.  `sdkHasStop` says whether the SDK exposes `stop`; the
returned `Bool` records whether `stop()` was invoked. -/
def endVoiceCall (sdkHasStop : Bool) (time : String) (s : State) : State × Bool :=
  if s.isListening then
    (onCallEnd time s, s.vapiReady && sdkHasStop)
  else
    (s, false)

/-- The text of the transient typing indicator (`widget.js` 367). -/
def typingText : String := "..."

/-- The simulated reply appended by the `setTimeout` callback
(`widget.js` 377). -/
def receivedReply : String :=
  "I received your message. How can I help you with your travel plans?"

/-- An ephemeral entry in the sense of the specification: `widget.js` has
no `ephemeral` flag; its transient thinking placeholder is the message
pushed with text `'...'` at line 367 and popped at line 373. -/
def isEphemeral (m : Msg) : Bool :=
  m.text == typingText

/-- The synchronous part of `sendTextMessage()` after the emptiness guard
(`widget.js` 358–367): push the user message, then push the `'...'`
typing indicator (`processUserMessage` between them is a console no-op,
lines 232–237). -/
def sendTextPhaseA (message time : String) (msgs : List Msg) : List Msg :=
  (msgs ++ [⟨message, "user", time⟩]) ++ [⟨typingText, "ai", time⟩]

/-- The pop step of the `setTimeout` callback (`widget.js` 372–374): drop
the last message if its text is `'...'`.  On an empty list the source
expression `this.messages[this.messages.length - 1].text` would throw; an
empty list never occurs in the schedules considered here and is mapped to
itself. -/
def popTypingIfLast (msgs : List Msg) : List Msg :=
  match msgs.getLast? with
  | some last => if last.text == typingText then msgs.dropLast else msgs
  | none => msgs

/-- The `setTimeout` callback of `sendTextMessage` (`widget.js` 370–378):
pop the typing indicator if it is last, then push the canned reply. -/
def sendTextPhaseB (time : String) (msgs : List Msg) : List Msg :=
  popTypingIfLast msgs ++ [⟨receivedReply, "ai", time⟩]

/-- Source `sendTextMessage()` (`widget.js` 351–379), synchronous part: the guard
`if (!input || !input.value.trim()) return;` followed by phase A on the
trimmed message.  The returned `Bool` records whether the message was
processed (i.e. the guard passed and the reply timer was scheduled). -/
def sendTextMessage (inputValue time : String) (s : State) : State × Bool :=
  if strTrim inputValue = "" then
    (s, false)
  else
    ({ s with messages := sendTextPhaseA (strTrim inputValue) time s.messages }, true)

/-- Task identifiers for two overlapping `sendTextMessage` invocations:
`a1`/`a2` are the synchronous bodies of the first and second call, `b1`/`b2`
their `setTimeout` reply callbacks. -/
inductive Ev where
  | a1
  | a2
  | b1
  | b2
deriving DecidableEq, BEq

/-- Effect of one task on the message list: the synchronous bodies run
phase A with their own message, the timer callbacks run phase B. -/
def runEv (m1 m2 time : String) : Ev → List Msg → List Msg
  | Ev.a1 => sendTextPhaseA m1 time
  | Ev.a2 => sendTextPhaseA m2 time
  | Ev.b1 => sendTextPhaseB time
  | Ev.b2 => sendTextPhaseB time

/-- Run a schedule of tasks left to right. -/
def runSched (m1 m2 time : String) (sched : List Ev) (msgs : List Msg) : List Msg :=
  sched.foldl (fun ms e => runEv m1 m2 time e ms) msgs

/-- Schedules the JavaScript event loop can produce for two
`sendTextMessage` calls: each of the four tasks runs once, each call's
synchronous body precedes its own timer callback, the synchronous bodies
run in invocation order, and the two equal-delay timers fire in
registration order.  Both the serialized schedule `[a1, b1, a2, b2]` (the
second call arrives after the first reply) and the overlapped schedule
`[a1, a2, b1, b2]` (the second call arrives within the 1 s delay) are
valid; nothing in `widget.js` queues the second call. -/
def validSched (sched : List Ev) : Bool :=
  sched.contains Ev.a1 && sched.contains Ev.a2 &&
  sched.contains Ev.b1 && sched.contains Ev.b2 &&
  sched.length == 4 &&
  Nat.blt (sched.indexOf Ev.a1) (sched.indexOf Ev.a2) &&
  Nat.blt (sched.indexOf Ev.a1) (sched.indexOf Ev.b1) &&
  Nat.blt (sched.indexOf Ev.a2) (sched.indexOf Ev.b2) &&
  Nat.blt (sched.indexOf Ev.b1) (sched.indexOf Ev.b2)

end TravelVoiceWidget

/-- A minimal JSON value type modelling what `JSON.stringify` /
`JSON.parse` exchange through `localStorage` in `ChatInterface.js`
(`saveMessages`/`loadMessages`, lines 223–230).  Serializing a value to
text and parsing it back is the identity on this type, so the stored
value is modelled directly instead of its string image. -/
inductive Json where
  | jstr : String → Json
  | jnum : Nat → Json
  | jarr : List Json → Json
  | jobj : List (String × Json) → Json

/-- First value bound to a key in a JSON object (JS property lookup on the
objects produced by `JSON.parse`). -/
def jlookup : List (String × Json) → String → Option Json
  | [], _ => none
  | (k, v) :: rest, key => if k == key then some v else jlookup rest key

/-- Extract a JSON string value. -/
def asStr : Option Json → Option String
  | some (Json.jstr s) => some s
  | _ => none

namespace ChatInterface

/-- One entry of `ChatInterface.this.messages` (`ChatInterface.js`
`addMessage`, lines 212–221): `{ content, type, time }`. -/
structure Msg where
  content : String
  type : String
  time : String
deriving DecidableEq

/-- Modelled from the spec: an ephemeral entry of a `ChatInterface`
message list.  The source records carry no `ephemeral` flag (the live
typing indicator is the separate `isLoading` flag); the spec's ephemeral
message is the transient thinking placeholder, which in this repository is
the message whose text is `'...'` (`widget.js` 367). -/
def isEphemeral (m : Msg) : Bool :=
  m.content == "..."

/-- One flight record of the search collaborator's response, with the
fields `generateAIResponse` reads (`ChatInterface.js` 185–191). -/
structure Flight where
  airline : String
  flight_number : String
  departure_time : String
  price : Nat
deriving DecidableEq

/-- The collaborator response body `{ outbound_flights: [...] }`
(`ChatInterface.js` 185). -/
structure SearchData where
  outbound_flights : List Flight
deriving DecidableEq

/-- JSON image of one message (`JSON.stringify` of a `{ content, type,
time }` record). -/
def encodeMsg (m : Msg) : Json :=
  Json.jobj [("content", Json.jstr m.content), ("type", Json.jstr m.type),
             ("time", Json.jstr m.time)]

/-- Reading one message record back out of parsed JSON. -/
def decodeMsg (j : Json) : Option Msg :=
  match j with
  | Json.jobj fields =>
    match asStr (jlookup fields "content"), asStr (jlookup fields "type"),
          asStr (jlookup fields "time") with
    | some c, some ty, some ti => some ⟨c, ty, ti⟩
    | _, _, _ => none
  | _ => none

/-- Reading a list of message records back out of parsed JSON items. -/
def decodeMsgList : List Json → Option (List Msg)
  | [] => some []
  | j :: rest =>
    match decodeMsg j, decodeMsgList rest with
    | some m, some ms => some (m :: ms)
    | _, _ => none

/-- Source `saveMessages()` (`ChatInterface.js` 223–225): stores
`JSON.stringify(this.messages)` — the whole message list, with no
filtering of any kind — under the `localStorage` key `chatMessages`. -/
def saveMessages (ms : List Msg) : Json :=
  Json.jarr (ms.map encodeMsg)

/-- Source `loadMessages()` (`ChatInterface.js` 227–230): `saved ?
JSON.parse(saved) : []`.  `none` models an absent `localStorage` entry.
A stored value that does not decode as a message array cannot arise from
`saveMessages` and is mapped to `[]` for totality. -/
def loadMessages (saved : Option Json) : List Msg :=
  match saved with
  | none => []
  | some (Json.jarr items) => (decodeMsgList items).getD []
  | some _ => []

/-- The mutable fields of `ChatInterface` the claims are about
(`ChatInterface.js` constructor, lines 1–8) together with the stored
`localStorage` value.  The source has no error-kind field of any kind;
`lastErrorKind` is carried only so that the spec claims about a recorded
error kind can be stated, and no operation below ever writes it. -/
structure State where
  messages : List Msg
  isLoading : Bool
  storage : Option Json
  lastErrorKind : Option ErrorKind

/-- A freshly constructed `ChatInterface` with empty `localStorage`. -/
def initialState : State :=
  { messages := [], isLoading := false, storage := none, lastErrorKind := none }

/-- Source `addMessage(content, type)` (`ChatInterface.js` 212–221): pushes the
record and immediately persists the whole list via `saveMessages`. -/
def addMessage (content type time : String) (s : State) : State :=
  let msgs := s.messages ++ [⟨content, type, time⟩]
  { s with messages := msgs, storage := some (saveMessages msgs) }

/-- The greeting reply (`ChatInterface.js` 198). -/
def greetingText : String :=
  "Hello! 👋 Welcome to Travel.ai. I can help you find flights, hotels, and make bookings. What are you looking for today?"

/-- The hotel reply (`ChatInterface.js` 202). -/
def hotelText : String :=
  "I can help you find hotels! Where would you like to stay and for which dates?"

/-- The booking reply (`ChatInterface.js` 206). -/
def bookingText : String :=
  "To make a booking, just tell me your preferences for flights or hotels and I\x27ll help you complete the reservation!"

/-- The default reply (`ChatInterface.js` 209). -/
def fallbackText : String :=
  "I understand you\x27re looking for travel options. Could you please specify what you need? For example: \"flights from Bengaluru to Dubai\", or \"hotels in Dubai\"?"

/-- The apology appended when the collaborator call fails
(`ChatInterface.js` 174). -/
def apologyText : String :=
  "Sorry, I encountered an error. Please try again."

/-- The flight reply template (`ChatInterface.js` 187–193), instantiated
with the flight count and the first flight. -/
def flightResponseText (n : Nat) (f : Flight) : String :=
  "I found " ++ toString n ++ " flights for you! \n                \nTop option: " ++
    f.airline ++ " " ++ f.flight_number ++ "\nDeparture: " ++ f.departure_time ++
    "\nPrice: ₹" ++ toString f.price ++
    "\n\nWould you like to book this flight or see other options?"

/-- The chain of checks of `generateAIResponse` after the flight branch
(`ChatInterface.js` 197–209), on the lowercased message. -/
def generateAIRest (lowerMessage : String) : String :=
  if strContains lowerMessage "hello" || strContains lowerMessage "hi" then
    greetingText
  else if strContains lowerMessage "hotel" then
    hotelText
  else if strContains lowerMessage "booking" || strContains lowerMessage "reserve" then
    bookingText
  else
    fallbackText

/-- Source `generateAIResponse(userMessage, data)` (`ChatInterface.js` 181–210).
Note the source's flight branch: on a `flight`/`book` keyword it returns
the flight reply only when `data.outbound_flights` is non-empty, and
otherwise falls through to the remaining checks. -/
def generateAIResponse (userMessage : String) (data : SearchData) : String :=
  let lowerMessage := strLower userMessage
  if strContains lowerMessage "flight" || strContains lowerMessage "book" then
    match data.outbound_flights with
    | f :: _ => flightResponseText data.outbound_flights.length f
    | [] => generateAIRest lowerMessage
  else
    generateAIRest lowerMessage

/-- The branch of `generateAIRest` a lowercased message takes, named by
its intent category. -/
def classifyIntentRest (lowerMessage : String) : Intent :=
  if strContains lowerMessage "hello" || strContains lowerMessage "hi" then
    Intent.Greeting
  else if strContains lowerMessage "hotel" then
    Intent.HotelSearch
  else if strContains lowerMessage "booking" || strContains lowerMessage "reserve" then
    Intent.BookingHelp
  else
    Intent.Fallback

/-- The branch of `generateAIResponse` (`ChatInterface.js` 181–210) a
message takes, named by its intent category.  It is a function of the
utterance and of the collaborator data, because the source's flight
branch fires only on non-empty `outbound_flights`. -/
def classifyIntent (userMessage : String) (data : SearchData) : Intent :=
  let lowerMessage := strLower userMessage
  if strContains lowerMessage "flight" || strContains lowerMessage "book" then
    match data.outbound_flights with
    | _ :: _ => Intent.FlightSearch
    | [] => classifyIntentRest lowerMessage
  else
    classifyIntentRest lowerMessage

/-- The reply text produced in each intent branch. -/
def intentResponse (i : Intent) (data : SearchData) : String :=
  match i with
  | Intent.FlightSearch =>
    match data.outbound_flights with
    | f :: _ => flightResponseText data.outbound_flights.length f
    | [] => fallbackText
  | Intent.Greeting => greetingText
  | Intent.HotelSearch => hotelText
  | Intent.BookingHelp => bookingText
  | Intent.Fallback => fallbackText

/-- The body `{ origin, destination, departure_date, passengers }` the
source posts to the collaborator (`ChatInterface.js` 157–162): fixed
values, not derived from the utterance. -/
structure SearchRequestBody where
  origin : String
  destination : String
  departure_date : String
  passengers : Nat
deriving DecidableEq

/-- The argument object of the `fetch` call (`ChatInterface.js` 154–163).
`signal` is the optional abort/timeout handle `fetch` accepts; the source
passes none, so the call is unbounded. -/
structure FetchInit where
  url : String
  method : String
  headers : List (String × String)
  body : SearchRequestBody
  signal : Option Unit
deriving DecidableEq

/-- The one request `sendMessage` ever issues (`ChatInterface.js`
154–163). -/
def searchFlightsInit : FetchInit :=
  { url := "http://localhost:8080/api/search-flights"
    method := "POST"
    headers := [("Content-Type", "application/json")]
    body := { origin := "BLR", destination := "DXB",
              departure_date := "2025-12-10", passengers := 1 }
    signal := none }

/-- The collaborator request `sendMessage` issues for a given raw input:
none when the emptiness guard returns early (`ChatInterface.js` 140–142),
otherwise the fixed search request. -/
def sendMessageRequest (rawInput : String) : Option FetchInit :=
  if strTrim rawInput = "" then none else some searchFlightsInit

/-- Source `sendMessage()` (`ChatInterface.js` 138–179).  `fetchResult` is the
outcome of the awaited collaborator call: `Except.error` models a network
failure, a non-ok response (the source throws `Failed to get response`)
or a `response.json()` parse failure.  The catch block appends the
apology; the finally block clears `isLoading`.  The function is total —
every failure of the try block is caught, so the source never rethrows to
its caller. -/
def sendMessage (rawInput time : String) (fetchResult : Except String SearchData)
    (s : State) : State :=
  let message := strTrim rawInput
  if message = "" then
    s
  else
    let s1 := addMessage message "user" time s
    let s2 := { s1 with isLoading := true }
    let s3 :=
      match fetchResult with
      | Except.ok data => addMessage (generateAIResponse message data) "ai" time s2
      | Except.error _ => addMessage apologyText "ai" time s2
    { s3 with isLoading := false }

end ChatInterface

/-- The branch conditions of `getErrorMessage` (`widget.js` 392–396) as an
ordered rule table of (predicate, kind) pairs, in source order. -/
def TravelVoiceWidget.errorRules : List ((String → Bool) × ErrorKind) :=
  [(fun m => strContains m "permission" || strContains m "Permission",
    ErrorKind.PermissionDenied),
   (fun m => strContains m "secure" || strContains m "HTTPS",
    ErrorKind.InsecureTransport),
   (fun m => strContains m "assistant", ErrorKind.AssistantMisconfigured)]

/-- First-match-wins evaluation of an ordered rule table, with `Unknown`
as the default. -/
def TravelVoiceWidget.firstMatchKind :
    List ((String → Bool) × ErrorKind) → String → ErrorKind
  | [], _ => ErrorKind.Unknown
  | (p, k) :: rest, m =>
    if p m then k else TravelVoiceWidget.firstMatchKind rest m

/-- Modelled from the spec (§4.5), for comparison with the code: contains
"permission" yields `PermissionDenied`; otherwise "secure" or "https"
yields `InsecureTransport`; otherwise "assistant" yields
`AssistantMisconfigured`; otherwise `Unknown`. -/
def specErrorClassify (m : String) : ErrorKind :=
  if strContains m "permission" then ErrorKind.PermissionDenied
  else if strContains m "secure" || strContains m "https" then ErrorKind.InsecureTransport
  else if strContains m "assistant" then ErrorKind.AssistantMisconfigured
  else ErrorKind.Unknown

/-- A collaborator payload with one flight, as in the `/api/search-flights`
response shape (`ChatInterface.js` 185–191). -/
def sampleFlights : ChatInterface.SearchData :=
  ⟨[{ airline := "Emirates", flight_number := "EK 568",
      departure_time := "10:30 AM", price := 18000 }]⟩

/-- A collaborator payload with no flights. -/
def emptyResults : ChatInterface.SearchData := ⟨[]⟩

/-- A widget whose SDK handshake has completed (`initVapi` ran:
`vapiReady = true`). -/
def readyWidget : TravelVoiceWidget.State :=
  { TravelVoiceWidget.initialState with vapiReady := true }

/-- A widget with a live voice call (`isListening = true`). -/
def listeningWidget : TravelVoiceWidget.State :=
  { readyWidget with isListening := true }

/-- Decoding inverts encoding on one message record. -/
theorem ChatInterface.decodeMsg_encodeMsg (m : ChatInterface.Msg) :
    ChatInterface.decodeMsg (ChatInterface.encodeMsg m) = some m := rfl

/-- Decoding inverts encoding on a list of message records. -/
theorem ChatInterface.decodeMsgList_map_encode (ms : List ChatInterface.Msg) :
    ChatInterface.decodeMsgList (ms.map ChatInterface.encodeMsg) = some ms := by
  induction ms with
  | nil => rfl
  | cons m rest ih =>
    simp [ChatInterface.decodeMsgList, ChatInterface.decodeMsg_encodeMsg, ih]

/-- Popping the typing indicator removes exactly a trailing typing
indicator. -/
theorem TravelVoiceWidget.popTypingIfLast_concat
    (l : List TravelVoiceWidget.Msg) (t : String) :
    TravelVoiceWidget.popTypingIfLast
        (l ++ [⟨TravelVoiceWidget.typingText, "ai", t⟩]) = l := by
  simp [TravelVoiceWidget.popTypingIfLast]

/-- The reply text of `generateAIResponse` is a function of the intent
branch taken: the classifier below names exactly the branch structure of
the source function. -/
theorem ChatInterface.generateAIResponse_intent
    (u : String) (d : ChatInterface.SearchData) :
    ChatInterface.generateAIResponse u d
      = ChatInterface.intentResponse (ChatInterface.classifyIntent u d) d := by
  have hrest : ∀ lm, ChatInterface.generateAIRest lm
      = ChatInterface.intentResponse (ChatInterface.classifyIntentRest lm) d := by
    intro lm
    unfold ChatInterface.generateAIRest ChatInterface.classifyIntentRest
    repeat' split
    all_goals rfl
  cases hfl : d.outbound_flights with
  | nil =>
    simp only [ChatInterface.generateAIResponse, ChatInterface.classifyIntent, hfl]
    split_ifs with h
    · exact hrest _
    · exact hrest _
  | cons f rest =>
    simp only [ChatInterface.generateAIResponse, ChatInterface.classifyIntent, hfl]
    split_ifs with h
    · simp only [ChatInterface.intentResponse, hfl]
    · exact hrest _

/-- C1.  The claim as stated is false on the code: `addMessage`
(`widget.js` 282–295) is a plain push with no replacement logic, so
appending the `'...'` typing indicator twice from the empty store, with no
intervening removal, leaves two ephemeral messages in the store, not
exactly one. -/
theorem two_ephemeral_appends_leave_two :
    ((TravelVoiceWidget.addMessage TravelVoiceWidget.typingText "ai" "09:01 AM"
        (TravelVoiceWidget.addMessage TravelVoiceWidget.typingText "ai" "09:00 AM"
          TravelVoiceWidget.initialState)).messages.filter
        TravelVoiceWidget.isEphemeral).length = 2 ∧
    ¬ ((TravelVoiceWidget.addMessage TravelVoiceWidget.typingText "ai" "09:01 AM"
        (TravelVoiceWidget.addMessage TravelVoiceWidget.typingText "ai" "09:00 AM"
          TravelVoiceWidget.initialState)).messages.filter
        TravelVoiceWidget.isEphemeral).length = 1 := by
  decide

/-- C1 (amended).  Appending an ephemeral (typing-indicator) message never
replaces a previous one: it always grows the ephemeral count by exactly
one, and the just-appended ephemeral message is the most recently appended
entry of the store. -/
theorem ephemeral_append_no_replacement
    (s : TravelVoiceWidget.State) (t : String) :
    ((TravelVoiceWidget.addMessage TravelVoiceWidget.typingText "ai" t s).messages.filter
        TravelVoiceWidget.isEphemeral).length
      = (s.messages.filter TravelVoiceWidget.isEphemeral).length + 1 ∧
    (TravelVoiceWidget.addMessage TravelVoiceWidget.typingText "ai" t s).messages.getLast?
      = some ⟨TravelVoiceWidget.typingText, "ai", t⟩ := by
  constructor
  · simp [TravelVoiceWidget.addMessage, TravelVoiceWidget.isEphemeral]
  · simp [TravelVoiceWidget.addMessage]

/-- C2.  The claim as stated is false on the code: classification is not
independent of collaborator data.  The flight branch of
`generateAIResponse` (`ChatInterface.js` 184–195) requires a non-empty
`outbound_flights` payload, so the quoted flight query classifies as
`Fallback`, not `FlightSearch`, when the collaborator returns no
flights. -/
theorem intent_depends_on_collaborator_data :
    ChatInterface.classifyIntent "Find flights from Bangalore to Dubai" emptyResults
      = Intent.Fallback ∧
    Intent.Fallback ≠ Intent.FlightSearch := by
  decide

/-- C2 (amended).  Classification follows the fixed, ordered,
case-insensitive substring rule table with first-match-wins, except that
the FlightSearch branch additionally requires at least one flight in the
collaborator data.  With a non-empty payload the four quoted examples
classify as the claim states; the non-flight examples classify identically
with an empty payload. -/
theorem intent_examples_with_flight_data :
    ChatInterface.classifyIntent "Find flights from Bangalore to Dubai" sampleFlights
      = Intent.FlightSearch ∧
    ChatInterface.classifyIntent "hello there" sampleFlights = Intent.Greeting ∧
    ChatInterface.classifyIntent "hello there" emptyResults = Intent.Greeting ∧
    ChatInterface.classifyIntent "need a hotel in Riyadh" sampleFlights
      = Intent.HotelSearch ∧
    ChatInterface.classifyIntent "need a hotel in Riyadh" emptyResults
      = Intent.HotelSearch ∧
    ChatInterface.classifyIntent "asdf" sampleFlights = Intent.Fallback ∧
    ChatInterface.classifyIntent "asdf" emptyResults = Intent.Fallback := by
  decide

/-- C3.  The claim as stated is false on the code: nothing in
`sendTextMessage` (`widget.js` 351–379) queues a second invocation.  The
overlapped schedule (both synchronous bodies before either reply timer) is
a valid event-loop schedule, and it interleaves the two invocations'
messages: the result differs from the serialized run and strands the
`'...'` typing indicator in the middle of the store. -/
theorem overlapped_schedule_interleaves :
    TravelVoiceWidget.validSched
      [TravelVoiceWidget.Ev.a1, TravelVoiceWidget.Ev.a2,
       TravelVoiceWidget.Ev.b1, TravelVoiceWidget.Ev.b2] = true ∧
    TravelVoiceWidget.runSched "first message" "second message" "09:00 AM"
      [TravelVoiceWidget.Ev.a1, TravelVoiceWidget.Ev.a2,
       TravelVoiceWidget.Ev.b1, TravelVoiceWidget.Ev.b2] []
      = [⟨"first message", "user", "09:00 AM"⟩,
         ⟨"...", "ai", "09:00 AM"⟩,
         ⟨"second message", "user", "09:00 AM"⟩,
         ⟨TravelVoiceWidget.receivedReply, "ai", "09:00 AM"⟩,
         ⟨TravelVoiceWidget.receivedReply, "ai", "09:00 AM"⟩] ∧
    TravelVoiceWidget.runSched "first message" "second message" "09:00 AM"
      [TravelVoiceWidget.Ev.a1, TravelVoiceWidget.Ev.a2,
       TravelVoiceWidget.Ev.b1, TravelVoiceWidget.Ev.b2] []
      ≠ TravelVoiceWidget.runSched "first message" "second message" "09:00 AM"
          [TravelVoiceWidget.Ev.a1, TravelVoiceWidget.Ev.b1,
           TravelVoiceWidget.Ev.a2, TravelVoiceWidget.Ev.b2] [] := by
  decide

/-- C3 (amended).  The store has no sequence numbers; the ordering that
does hold is list order.  When the two invocations are serialized (each
reply timer fires before the next call arrives), the appended messages
appear in invocation order with no interleaving, from any starting
store. -/
theorem serialized_schedule_invocation_order
    (m1 m2 t : String) (msgs : List TravelVoiceWidget.Msg) :
    TravelVoiceWidget.runSched m1 m2 t
        [TravelVoiceWidget.Ev.a1, TravelVoiceWidget.Ev.b1,
         TravelVoiceWidget.Ev.a2, TravelVoiceWidget.Ev.b2] msgs
      = msgs ++ [⟨m1, "user", t⟩, ⟨TravelVoiceWidget.receivedReply, "ai", t⟩,
                 ⟨m2, "user", t⟩, ⟨TravelVoiceWidget.receivedReply, "ai", t⟩] := by
  unfold TravelVoiceWidget.runSched
  simp only [List.foldl_cons, List.foldl_nil, TravelVoiceWidget.runEv]
  rw [TravelVoiceWidget.sendTextPhaseA, TravelVoiceWidget.sendTextPhaseB,
      TravelVoiceWidget.popTypingIfLast_concat,
      TravelVoiceWidget.sendTextPhaseA, TravelVoiceWidget.sendTextPhaseB,
      TravelVoiceWidget.popTypingIfLast_concat]
  simp

/-- C4.  The claim as stated is false on the code: the catch block of
`sendMessage` (`ChatInterface.js` 172–175) appends the apology but records
no error kind anywhere — the class has no error field and never invokes a
classifier — so after a failed collaborator call the session's error kind
is still `none`, not the `NetworkFailure` (or any other) kind the claim
requires. -/
theorem failure_path_records_no_error_kind :
    (ChatInterface.sendMessage "show me flights" "09:00 AM" (Except.error "network error")
        ChatInterface.initialState).lastErrorKind = none ∧
    (ChatInterface.sendMessage "show me flights" "09:00 AM" (Except.error "network error")
        ChatInterface.initialState).lastErrorKind ≠ some ErrorKind.NetworkFailure := by
  decide

/-- C4 (amended).  On any collaborator failure `sendMessage` clears the
loading indicator, appends exactly the user message and the apologetic
assistant message, persists them, and returns normally (the embedded
function is total: every failure of the try block is caught); it records
no error kind — the session's `lastErrorKind` is left untouched. -/
theorem failure_path_recovers_without_error_kind
    (raw t e : String) (s : ChatInterface.State) (h : ¬ strTrim raw = "") :
    (ChatInterface.sendMessage raw t (Except.error e) s).messages
        = s.messages ++ [⟨strTrim raw, "user", t⟩, ⟨ChatInterface.apologyText, "ai", t⟩] ∧
    (ChatInterface.sendMessage raw t (Except.error e) s).isLoading = false ∧
    (ChatInterface.sendMessage raw t (Except.error e) s).lastErrorKind = s.lastErrorKind ∧
    (ChatInterface.sendMessage raw t (Except.error e) s).storage
        = some (ChatInterface.saveMessages
            (s.messages ++ [⟨strTrim raw, "user", t⟩, ⟨ChatInterface.apologyText, "ai", t⟩])) := by
  refine ⟨?_, ?_, ?_, ?_⟩ <;>
    simp [ChatInterface.sendMessage, ChatInterface.addMessage, h]

/-- Witness for `failure_path_recovers_without_error_kind` at a concrete
input. -/
theorem failure_path_recovers_without_error_kind_witness :
    ¬ strTrim "hi" = "" ∧
    ((ChatInterface.sendMessage "hi" "09:00 AM" (Except.error "Failed to get response")
        ChatInterface.initialState).messages
        = ChatInterface.initialState.messages
            ++ [⟨strTrim "hi", "user", "09:00 AM"⟩,
                ⟨ChatInterface.apologyText, "ai", "09:00 AM"⟩] ∧
     (ChatInterface.sendMessage "hi" "09:00 AM" (Except.error "Failed to get response")
        ChatInterface.initialState).isLoading = false ∧
     (ChatInterface.sendMessage "hi" "09:00 AM" (Except.error "Failed to get response")
        ChatInterface.initialState).lastErrorKind = ChatInterface.initialState.lastErrorKind ∧
     (ChatInterface.sendMessage "hi" "09:00 AM" (Except.error "Failed to get response")
        ChatInterface.initialState).storage
        = some (ChatInterface.saveMessages
            (ChatInterface.initialState.messages
              ++ [⟨strTrim "hi", "user", "09:00 AM"⟩,
                  ⟨ChatInterface.apologyText, "ai", "09:00 AM"⟩]))) :=
  ⟨by decide,
   failure_path_recovers_without_error_kind "hi" "09:00 AM" "Failed to get response"
     ChatInterface.initialState (by decide)⟩

/-- C5.  The claim as stated is false on the code: the substring tests of
`getErrorMessage` (`widget.js` 392–396) are case-sensitive and test
`HTTPS` in upper case, so a failure text containing the lower-case
`https` (and none of the other keywords) classifies as `Unknown`, not as
the `InsecureTransport` the claim's rule (contains "https") requires. -/
theorem classifyError_lowercase_https_unknown :
    TravelVoiceWidget.classifyError (some "connection is not https") = ErrorKind.Unknown ∧
    specErrorClassify "connection is not https" = ErrorKind.InsecureTransport ∧
    ErrorKind.Unknown ≠ ErrorKind.InsecureTransport := by
  decide

/-- C5 (amended).  The error classifier applies ordered, case-sensitive
substring rules with first-match-wins: contains "permission" or
"Permission" yields `PermissionDenied`; otherwise "secure" or "HTTPS"
(upper case) yields `InsecureTransport`; otherwise "assistant" yields
`AssistantMisconfigured`; otherwise `Unknown`.  Equivalently, it is the
first-match evaluation of the ordered rule table `errorRules`, and the
user-facing text of `getErrorMessage` is determined by the classified
kind. -/
theorem classifyError_rule_table (m : String) :
    TravelVoiceWidget.classifyError (some m)
        = TravelVoiceWidget.firstMatchKind TravelVoiceWidget.errorRules m ∧
    TravelVoiceWidget.getErrorMessage (some m)
        = TravelVoiceWidget.errorText (TravelVoiceWidget.classifyError (some m)) m := by
  constructor
  · rfl
  · unfold TravelVoiceWidget.getErrorMessage TravelVoiceWidget.classifyError
      TravelVoiceWidget.errorText
    dsimp only
    split_ifs <;> rfl

/-- C6.  The claim as stated is false on the code: the single collaborator
request `sendMessage` builds (`ChatInterface.js` 154–163) carries no abort
signal or timeout of any kind, and after a failure that a bounded call
would report as expiry the session records no `Timeout` kind (the code
has no timeout logic and no error field at all). -/
theorem no_timeout_no_timeout_kind :
    ChatInterface.searchFlightsInit.signal = none ∧
    (ChatInterface.sendMessage "book a flight to Dubai" "09:00 AM"
        (Except.error "timeout of 10000ms exceeded")
        ChatInterface.initialState).lastErrorKind ≠ some ErrorKind.Timeout := by
  decide

/-- C6 (amended).  Every collaborator request issued by the text pipeline
is the fixed search request, and it is unbounded: it carries no abort
signal or timeout. -/
theorem search_request_has_no_signal (raw : String) (r : ChatInterface.FetchInit)
    (h : ChatInterface.sendMessageRequest raw = some r) :
    r.signal = none ∧ r.url = "http://localhost:8080/api/search-flights" := by
  unfold ChatInterface.sendMessageRequest at h
  split at h
  · exact Option.noConfusion h
  · injection h with h'
    subst h'
    exact ⟨rfl, rfl⟩

/-- Witness for `search_request_has_no_signal` at a concrete input. -/
theorem search_request_has_no_signal_witness :
    ChatInterface.sendMessageRequest "find flights" = some ChatInterface.searchFlightsInit ∧
    (ChatInterface.searchFlightsInit.signal = none ∧
     ChatInterface.searchFlightsInit.url = "http://localhost:8080/api/search-flights") :=
  ⟨by decide,
   search_request_has_no_signal "find flights" ChatInterface.searchFlightsInit (by decide)⟩

/-- C7.  The claim as stated is false on the code: `saveMessages`
(`ChatInterface.js` 223–225) stringifies the whole message list with no
filtering, so a list containing an ephemeral (typing-indicator) entry
round-trips to itself, not to its non-ephemeral subsequence. -/
theorem roundtrip_keeps_ephemeral :
    ChatInterface.loadMessages (some (ChatInterface.saveMessages
        [⟨"...", "ai", "09:00 AM"⟩]))
      = [(⟨"...", "ai", "09:00 AM"⟩ : ChatInterface.Msg)] ∧
    ChatInterface.loadMessages (some (ChatInterface.saveMessages
        [⟨"...", "ai", "09:00 AM"⟩]))
      ≠ ([⟨"...", "ai", "09:00 AM"⟩] : List ChatInterface.Msg).filter
          (fun m => !(ChatInterface.isEphemeral m)) := by
  decide

/-- C7 (amended).  Restoring after persisting reproduces exactly the whole
message list, ephemeral entries included: `loadMessages` after
`saveMessages` is the identity on every message list. -/
theorem load_save_roundtrip_keeps_all (ms : List ChatInterface.Msg) :
    ChatInterface.loadMessages (some (ChatInterface.saveMessages ms)) = ms := by
  simp [ChatInterface.loadMessages, ChatInterface.saveMessages,
        ChatInterface.decodeMsgList_map_encode]

/-- C8.  Calling `startVoiceCall` while the SDK is not ready
(`widget.js` 195–198) leaves the listening and readiness flags unchanged,
places no call (`window.vapiSDK.run` is not invoked), and appends exactly
the "still loading" system message; when the SDK is ready and the run call
succeeds, the widget enters the listening state and the call is placed. -/
theorem startVoiceCall_not_ready_guard (s : TravelVoiceWidget.State) (t : String)
    (r : Except String Unit) :
    (s.vapiReady = false →
      (TravelVoiceWidget.startVoiceCall r t s).1.isListening = s.isListening ∧
      (TravelVoiceWidget.startVoiceCall r t s).1.vapiReady = s.vapiReady ∧
      (TravelVoiceWidget.startVoiceCall r t s).1.messages
          = s.messages ++ [⟨"⚠️ " ++ TravelVoiceWidget.stillLoadingText, "system", t⟩] ∧
      (TravelVoiceWidget.startVoiceCall r t s).2 = false) ∧
    (s.vapiReady = true →
      (TravelVoiceWidget.startVoiceCall (Except.ok ()) t s).1.isListening = true ∧
      (TravelVoiceWidget.startVoiceCall (Except.ok ()) t s).2 = true) := by
  constructor
  · intro h
    simp [TravelVoiceWidget.startVoiceCall, TravelVoiceWidget.showError,
          TravelVoiceWidget.addMessage, h]
  · intro h
    simp [TravelVoiceWidget.startVoiceCall, TravelVoiceWidget.addMessage, h]

/-- Witness for `startVoiceCall_not_ready_guard`: a freshly constructed
widget is not ready, a widget after the SDK handshake is. -/
theorem startVoiceCall_not_ready_guard_witness :
    (TravelVoiceWidget.initialState.vapiReady = false ∧
      ((TravelVoiceWidget.startVoiceCall (Except.error "Vapi SDK not loaded") "09:00 AM"
          TravelVoiceWidget.initialState).1.isListening
          = TravelVoiceWidget.initialState.isListening ∧
       (TravelVoiceWidget.startVoiceCall (Except.error "Vapi SDK not loaded") "09:00 AM"
          TravelVoiceWidget.initialState).1.vapiReady
          = TravelVoiceWidget.initialState.vapiReady ∧
       (TravelVoiceWidget.startVoiceCall (Except.error "Vapi SDK not loaded") "09:00 AM"
          TravelVoiceWidget.initialState).1.messages
          = TravelVoiceWidget.initialState.messages
              ++ [⟨"⚠️ " ++ TravelVoiceWidget.stillLoadingText, "system", "09:00 AM"⟩] ∧
       (TravelVoiceWidget.startVoiceCall (Except.error "Vapi SDK not loaded") "09:00 AM"
          TravelVoiceWidget.initialState).2 = false)) ∧
    (readyWidget.vapiReady = true ∧
      ((TravelVoiceWidget.startVoiceCall (Except.ok ()) "09:00 AM" readyWidget).1.isListening
          = true ∧
       (TravelVoiceWidget.startVoiceCall (Except.ok ()) "09:00 AM" readyWidget).2 = true)) :=
  ⟨⟨rfl, (startVoiceCall_not_ready_guard TravelVoiceWidget.initialState "09:00 AM"
      (Except.error "Vapi SDK not loaded")).1 rfl⟩,
   ⟨rfl, (startVoiceCall_not_ready_guard readyWidget "09:00 AM"
      (Except.ok ())).2 rfl⟩⟩

/-- C9.  `endVoiceCall` while listening stops the SDK call (when the SDK
exposes `stop`), clears the listening flag (re-entering the ready state,
readiness unchanged) and appends exactly one system message announcing the
call end; outside the listening state it changes nothing and appends
nothing. -/
theorem endVoiceCall_listening_only (s : TravelVoiceWidget.State) (t : String)
    (hasStop : Bool) :
    (s.isListening = true →
      (TravelVoiceWidget.endVoiceCall hasStop t s).1.isListening = false ∧
      (TravelVoiceWidget.endVoiceCall hasStop t s).1.vapiReady = s.vapiReady ∧
      (TravelVoiceWidget.endVoiceCall hasStop t s).1.messages
          = s.messages ++ [⟨"Call ended. How else can I help you?", "system", t⟩] ∧
      (TravelVoiceWidget.endVoiceCall hasStop t s).2 = (s.vapiReady && hasStop)) ∧
    (s.isListening = false →
      TravelVoiceWidget.endVoiceCall hasStop t s = (s, false)) := by
  constructor
  · intro h
    simp [TravelVoiceWidget.endVoiceCall, TravelVoiceWidget.onCallEnd,
          TravelVoiceWidget.addMessage, h]
  · intro h
    simp [TravelVoiceWidget.endVoiceCall, h]

/-- Witness for `endVoiceCall_listening_only`: a widget with a live call,
and a ready widget with no live call. -/
theorem endVoiceCall_listening_only_witness :
    (listeningWidget.isListening = true ∧
      ((TravelVoiceWidget.endVoiceCall true "09:05 AM" listeningWidget).1.isListening = false ∧
       (TravelVoiceWidget.endVoiceCall true "09:05 AM" listeningWidget).1.vapiReady
          = listeningWidget.vapiReady ∧
       (TravelVoiceWidget.endVoiceCall true "09:05 AM" listeningWidget).1.messages
          = listeningWidget.messages
              ++ [⟨"Call ended. How else can I help you?", "system", "09:05 AM"⟩] ∧
       (TravelVoiceWidget.endVoiceCall true "09:05 AM" listeningWidget).2
          = (listeningWidget.vapiReady && true))) ∧
    (readyWidget.isListening = false ∧
      TravelVoiceWidget.endVoiceCall true "09:05 AM" readyWidget = (readyWidget, false)) :=
  ⟨⟨rfl, (endVoiceCall_listening_only listeningWidget "09:05 AM" true).1 rfl⟩,
   ⟨rfl, (endVoiceCall_listening_only readyWidget "09:05 AM" true).2 rfl⟩⟩

/-- C10.  Submitting an empty or whitespace-only utterance is a complete
no-op on both text entry points: the widget's `sendTextMessage`
(`widget.js` 353) returns with the state unchanged and schedules no
processing, and the frontend's `sendMessage` (`ChatInterface.js` 140–142)
returns with the state unchanged and issues no collaborator request. -/
theorem empty_input_noop (input t : String) (s : TravelVoiceWidget.State)
    (cs : ChatInterface.State) (fr : Except String ChatInterface.SearchData)
    (h : strTrim input = "") :
    TravelVoiceWidget.sendTextMessage input t s = (s, false) ∧
    ChatInterface.sendMessage input t fr cs = cs ∧
    ChatInterface.sendMessageRequest input = none := by
  refine ⟨?_, ?_, ?_⟩ <;>
    simp [TravelVoiceWidget.sendTextMessage, ChatInterface.sendMessage,
          ChatInterface.sendMessageRequest, h]

/-- Witness for `empty_input_noop` at a whitespace-only input. -/
theorem empty_input_noop_witness :
    strTrim "   " = "" ∧
    (TravelVoiceWidget.sendTextMessage "   " "09:00 AM" TravelVoiceWidget.initialState
        = (TravelVoiceWidget.initialState, false) ∧
     ChatInterface.sendMessage "   " "09:00 AM" (Except.error "network error")
        ChatInterface.initialState = ChatInterface.initialState ∧
     ChatInterface.sendMessageRequest "   " = none) :=
  ⟨by decide,
   empty_input_noop "   " "09:00 AM" TravelVoiceWidget.initialState
     ChatInterface.initialState (Except.error "network error") (by decide)⟩
